import Mathlib

/-!
# crash-diagnostics: the `kube_config` built-in and the `out` command

A shallow embedding of `starlark/kube_config.go` and `cmd/out.go`.

* Starlark values, structs, the interpreter thread's locals and Go `error`
  values are data types; the library calls the source makes
  (`starlark.UnpackArgs`, `Struct.Attr`, `Struct.Constructor`,
  `starlarkstruct.FromStringDict`, `Thread.SetLocal`, `Thread.Local`,
  `errors.New`, `errors.Wrap`, `fmt.Errorf`) are functions over them.
* A Go function that can panic returns an `Outcome`; a Go function that
  writes the thread returns the thread it leaves behind.
* The package-level tables `identifiers` and `defaults`, declared outside the
  two source files, are parameters.
-/

set_option linter.dupNamespace false

namespace Starlark

/-! ## Go errors -/

/-- Go `error` values, by the call that built them. -/
inductive Error where
  /-- Built by `errors.New(msg)` -/
  | New (msg : String)
  /-- Built by `errors.Wrap(err, msg)` for a non-nil `err` -/
  | Wrap (err : Error) (msg : String)
  /-- Built by `fmt.Errorf(...)`, `msg` being the formatted text -/
  | Errorf (msg : String)
  /-- A `starlark.NoSuchAttrError`, raised by `Struct.Attr` for the attribute `name` -/
  | NoSuchAttrError (name : String)
  deriving DecidableEq, Repr

/-- The method `Error()` of a Go error: its message. The library puts the
struct's constructor in front of a `NoSuchAttrError` message when it is not the
default one; that part of the text is not rendered here. -/
def Error.Error : Error → String
  | .New msg => msg
  | .Wrap err msg => msg ++ ": " ++ err.Error
  | .Errorf msg => msg
  | .NoSuchAttrError name => "struct has no ." ++ name ++ " attribute"

/-- Result of a Go function call: it returns, or the goroutine panics. -/
inductive Outcome (α : Type) where
  | ret (a : α)
  | panic (msg : String)

/-! ## Starlark values -/

mutual
/-- A `starlark.Value`. Kinds of value this code never looks into are `Other`,
kept by the name their `Type()` method gives. -/
inductive Value where
  | NoneType
  | Bool (b : Bool)
  | Int (i : Int)
  | String (s : String)
  | Struct (s : Struct)
  | Other (typeName : String)
/-- A `*starlarkstruct.Struct` that is not nil: a constructor value and named
entries. The library keeps the entries sorted by name and finds one by binary
search; here they are an association list read by name. -/
inductive Struct where
  | mk (constructor : Value) (entries : List (String × Value))
end

/-- The value `None`, the only value of `starlark.NoneType`. -/
def None : Value := Value.NoneType

/-- The value `starlarkstruct.Default`, the constructor of plain structs. -/
def Default : Value := Value.String "struct"

/-- The method `Type()` of a value. -/
def typeName : Value → String
  | .NoneType => "NoneType"
  | .Bool _ => "bool"
  | .Int _ => "int"
  | .String _ => "string"
  | .Struct _ => "struct"
  | .Other typeName => typeName

/-- The method `(*Struct).Constructor()`. -/
def Struct.Constructor : Struct → Value
  | .mk constructor _ => constructor

/-- The named entries of a struct. -/
def Struct.entries : Struct → List (String × Value)
  | .mk _ entries => entries

/-- The method `(*Struct).Attr(name)`: the value of the entry `name`, or a
`NoSuchAttrError`. -/
def Struct.Attr (s : Struct) (name : String) : Except Error Value :=
  match s.entries.lookup name with
  | some v => .ok v
  | none => .error (Error.NoSuchAttrError name)

/-- The function `starlarkstruct.FromStringDict(constructor, d)`. -/
def FromStringDict (constructor : Value) (d : List (String × Value)) : Struct :=
  Struct.mk constructor d

/-! ## The interpreter thread -/

/-- What a thread-local slot holds, a Go `interface{}`: a Starlark value or
some other Go value. -/
inductive Interface where
  | value (v : Value)
  | goValue (typeName : String)

/-- A `*starlark.Thread`, reduced to its map of locals. -/
structure Thread where
  locals : String → Option Interface

/-- A thread on which no local was ever set. -/
def Thread.empty : Thread := ⟨fun _ => none⟩

/-- The method `thread.Local(key)`: the slot of `key`, `none` being the nil interface. -/
def Thread.Local (thread : Thread) (key : String) : Option Interface :=
  thread.locals key

/-- The method `thread.SetLocal(key, value)`. -/
def Thread.SetLocal (thread : Thread) (key : String) (value : Interface) : Thread :=
  ⟨fun k => if k = key then some value else thread.locals k⟩

/-! ## `starlark.UnpackArgs` for `"path?", &path, "capi_provider?", &provider` -/

/-- The two variables `UnpackArgs` fills, and which parameters it has seen. -/
structure Unpacked where
  path : String
  provider : Option Struct
  definedPath : Bool
  definedProvider : Bool

/-- The library's `unpackOneArg` into a `*string`. -/
def unpackString (v : Value) : Except Error String :=
  match v with
  | .String s => .ok s
  | _ => .error (Error.Errorf ("got " ++ typeName v ++ ", want string"))

/-- The library's `unpackOneArg` into a `**starlarkstruct.Struct`. -/
def unpackStruct (v : Value) : Except Error Struct :=
  match v with
  | .Struct s => .ok s
  | _ => .error (Error.Errorf ("got " ++ typeName v ++ ", want struct"))

/-- The error `UnpackArgs` wraps around a failed `unpackOneArg`. -/
def forParameter (fnname name : String) (err : Error) : Error :=
  Error.Errorf (fnname ++ ": for parameter " ++ name ++ ": " ++ err.Error)

/-- Store `arg` as `path`. -/
def setPath (fnname : String) (arg : Value) (st : Unpacked) : Except Error Unpacked :=
  match unpackString arg with
  | .ok s => .ok ⟨s, st.provider, true, st.definedProvider⟩
  | .error err => .error (forParameter fnname "path" err)

/-- Store `arg` as `capi_provider`. -/
def setProvider (fnname : String) (arg : Value) (st : Unpacked) : Except Error Unpacked :=
  match unpackStruct arg with
  | .ok s => .ok ⟨st.path, some s, st.definedPath, true⟩
  | .error err => .error (forParameter fnname "capi_provider" err)

/-- The positional arguments, in parameter order; at most two are taken. -/
def unpackPositional (fnname : String) (args : List Value) (st : Unpacked) :
    Except Error Unpacked :=
  match args with
  | [] => .ok st
  | [a] => setPath fnname a st
  | [a, b] =>
    match setPath fnname a st with
    | .ok st1 => setProvider fnname b st1
    | .error err => .error err
  | _ =>
    .error (Error.Errorf (fnname ++ ": got " ++ toString args.length ++
      " arguments, want at most 2"))

/-- The keyword arguments, in call order. A name seen before is refused, and so
is a name that is no parameter (the library may add a spelling hint to that
message, left out here). -/
def unpackKeywords (fnname : String) :
    List (String × Value) → Unpacked → Except Error Unpacked
  | [], st => .ok st
  | (name, arg) :: rest, st =>
    if name = "path" then
      if st.definedPath then
        .error (Error.Errorf (fnname ++ ": got multiple values for keyword argument " ++ name))
      else
        match setPath fnname arg st with
        | .ok st1 => unpackKeywords fnname rest st1
        | .error err => .error err
    else if name = "capi_provider" then
      if st.definedProvider then
        .error (Error.Errorf (fnname ++ ": got multiple values for keyword argument " ++ name))
      else
        match setProvider fnname arg st with
        | .ok st1 => unpackKeywords fnname rest st1
        | .error err => .error err
    else
      .error (Error.Errorf (fnname ++ ": unexpected keyword argument " ++ name))

/-- The call `starlark.UnpackArgs(fnname, args, kwargs, "path?", &path, "capi_provider?",
&provider)` with `path` and `provider` starting at their zero values: the
values of the two variables afterwards, or the error. Both parameters are
optional, so nothing is checked after the two loops. -/
def UnpackArgs (fnname : String) (args : List Value) (kwargs : List (String × Value)) :
    Except Error (String × Option Struct) :=
  match unpackPositional fnname args ⟨"", none, false, false⟩ with
  | .error err => .error err
  | .ok st =>
    match unpackKeywords fnname kwargs st with
    | .error err => .error err
    | .ok st1 => .ok (st1.path, st1.provider)

/-! ## `starlark/kube_config.go` -/

/-- The fields of the package table `identifiers` this file reads. -/
structure Identifiers where
  crashdCfg : String
  kubeCfg : String
  capvProvider : String

/-- The field of the package table `defaults` this file reads. -/
structure Defaults where
  kubeconfig : String

/-- The constructor check of `KubeConfigFn`: the error it returns, if any. Only
a constructor that is a `starlark.String` is compared. -/
def checkConstructor (identifiers : Identifiers) (val : Value) : Option Error :=
  match val with
  | .String constructor =>
    if constructor ≠ identifiers.capvProvider then
      some (Error.New "unknown capi provider")
    else none
  | _ => none

/-- The body of `if len(path) == 0 { ... }` in `KubeConfigFn`: the new value of
`path`, or the error returned from inside the block. A nil `provider` would
panic at `provider.Constructor()`. -/
def pathFromProvider (identifiers : Identifiers) (provider : Option Struct) :
    Outcome (Except Error String) :=
  match provider with
  | none => .panic "invalid memory address or nil pointer dereference"
  | some provider =>
    match checkConstructor identifiers provider.Constructor with
    | some err => .ret (.error err)
    | none =>
      match provider.Attr "kubeconfig" with
      | .error err => .ret (.error (Error.Wrap err "could not find the kubeconfig attribute"))
      | .ok pathVal =>
        match pathVal with
        | .String pathStr => .ret (.ok pathStr)
        | _ => .ret (.error (Error.New "could not fetch kubeconfig"))

/-- The function `KubeConfigFn(thread, _, args, kwargs)`: the returned `(starlark.Value,
error)` pair and the thread afterwards. -/
def KubeConfigFn (identifiers : Identifiers) (thread : Thread) (args : List Value)
    (kwargs : List (String × Value)) : Outcome ((Value × Option Error) × Thread) :=
  match UnpackArgs identifiers.crashdCfg args kwargs with
  | .error err =>
    .ret ((None, some (Error.Errorf (identifiers.kubeCfg ++ ": " ++ err.Error))), thread)
  | .ok (path, provider) =>
    if (path.length = 0 ∧ provider.isNone) ∨ (path.length ≠ 0 ∧ provider.isSome) then
      .ret ((None, some (Error.New "need either path or capi_provider")), thread)
    else
      let resolved : Outcome (Except Error String) :=
        if path.length = 0 then pathFromProvider identifiers provider
        else .ret (.ok path)
      match resolved with
      | .panic msg => .panic msg
      | .ret (.error err) => .ret ((None, some err), thread)
      | .ret (.ok path) =>
        let structVal := FromStringDict Default [("path", Value.String path)]
        .ret ((Value.Struct structVal, none),
          thread.SetLocal identifiers.kubeCfg (Interface.value (Value.Struct structVal)))

/-- The function `addDefaultKubeConf(thread)`: the returned error and the thread afterwards. -/
def addDefaultKubeConf (identifiers : Identifiers) (defaults : Defaults) (thread : Thread) :
    Outcome (Option Error × Thread) :=
  let args : List (String × Value) := [("path", Value.String defaults.kubeconfig)]
  match KubeConfigFn identifiers thread [] args with
  | .panic msg => .panic msg
  | .ret ((_, some err), thread1) => .ret (some err, thread1)
  | .ret ((_, none), thread1) => .ret (none, thread1)

/-- The function `getKubeConfigFromStruct(kubeConfigStructVal)`. -/
def getKubeConfigFromStruct (kubeConfigStructVal : Struct) : String × Option Error :=
  match kubeConfigStructVal.Attr "path" with
  | .error err => ("", some (Error.Wrap err "failed to extract kubeconfig path"))
  | .ok kvPathVal =>
    match kvPathVal with
    | .String kvPathStrVal => (kvPathStrVal, none)
    | _ => ("", some (Error.New "failed to extract management kubeconfig"))

/-- The end of `getKubeConfigPath`, from `kubeConfigVal, ok := kcVal.(*Struct)`
on, with the values `kcVal` and `err` have there. -/
def kubeConfigPathOf (kcVal : Value) (err : Option Error) : String × Option Error :=
  match kcVal with
  | .Struct kubeConfigVal => getKubeConfigFromStruct kubeConfigVal
  | _ => ("", err)

/-- The function `getKubeConfigPath(thread, structVal)`. The assertion
`kubeConfigData.(starlark.Value)` has one result, so it panics when the local is
nil or holds something that is no Starlark value. -/
def getKubeConfigPath (identifiers : Identifiers) (thread : Thread) (structVal : Struct) :
    Outcome (String × Option Error) :=
  match structVal.Attr "kube_config" with
  | .ok kcVal => .ret (kubeConfigPathOf kcVal none)
  | .error err =>
    match thread.Local identifiers.kubeCfg with
    | none => .panic "interface conversion: interface is nil, not starlark.Value"
    | some (.goValue typeName) =>
      .panic ("interface conversion: " ++ typeName ++ " is not starlark.Value")
    | some (.value kcVal) => .ret (kubeConfigPathOf kcVal (some err))

/-! ## Values the examples are run at -/

/-- Identifiers for the examples: the names the built-ins go by in scripts. -/
def sampleIdentifiers : Identifiers := ⟨"crashd_config", "kube_config", "capv_provider"⟩

/-- The record `KubeConfigFn` builds for `path`. -/
def configRecord (path : String) : Struct :=
  FromStringDict Default [("path", Value.String path)]

/-- A provider struct with the tag of `sampleIdentifiers` and a kubeconfig path. -/
def sampleProvider : Struct :=
  Struct.mk (Value.String "capv_provider") [("kubeconfig", Value.String "/tmp/a.yaml")]

/-- A provider struct tagged `"other"`. -/
def otherProvider : Struct :=
  Struct.mk (Value.String "other") [("kubeconfig", Value.String "/tmp/a.yaml")]

/-- A provider struct whose constructor is a built-in function, not a string. -/
def builtinTaggedProvider : Struct :=
  Struct.mk (Value.Other "builtin_function_or_method")
    [("kubeconfig", Value.String "/tmp/a.yaml")]

/-- A provider struct whose constructor is `None`, not a string. -/
def noneTaggedProvider : Struct :=
  Struct.mk Value.NoneType [("kubeconfig", Value.String "/tmp/b.yaml")]

/-- A provider struct with the recognized tag and no `kubeconfig` attribute. -/
def providerWithoutKubeconfig : Struct :=
  Struct.mk (Value.String "capv_provider") [("name", Value.String "mgmt")]

/-- A provider struct with the recognized tag whose `kubeconfig` is an int. -/
def providerWithIntKubeconfig : Struct :=
  Struct.mk (Value.String "capv_provider") [("kubeconfig", Value.Int 7)]

/-- A directive struct without a `kube_config` attribute. -/
def plainDirective : Struct :=
  Struct.mk Default [("cmd", Value.String "uptime")]

/-- A directive struct carrying its own `kube_config` record. -/
def overridingDirective : Struct :=
  Struct.mk Default
    [("cmd", Value.String "uptime"), ("kube_config", Value.Struct (configRecord "/etc/own.yaml"))]

/-- A directive struct whose `kube_config` attribute is a string, not a record. -/
def directiveWithStringConfig : Struct :=
  Struct.mk Default
    [("cmd", Value.String "uptime"), ("kube_config", Value.String "/etc/own.yaml")]

/-- A directive struct whose `kube_config` attribute is a record without a
`path` field. -/
def directiveWithEmptyRecord : Struct :=
  Struct.mk Default
    [("cmd", Value.String "uptime"), ("kube_config", Value.Struct (Struct.mk Default []))]

/-- The keyword list of a call that passes `capi_provider=v`, or omits it. -/
def providerKeyword : Option Value → List (String × Value)
  | none => []
  | some v => [("capi_provider", v)]

/-- A thread that holds a Go value under another key, as other built-ins leave. -/
def threadWithOtherLocal : Thread :=
  Thread.empty.SetLocal "crashd_config" (Interface.goValue "*starlarkstruct.Struct")

/-- A value of the table `defaults` for the examples. -/
def sampleDefaults : Defaults := ⟨"/home/user/.kube/config"⟩

/-- A thread whose `kube_config` default is the record for `path`. -/
def threadWithDefault (path : String) : Thread :=
  Thread.empty.SetLocal "kube_config" (Interface.value (Value.Struct (configRecord path)))

end Starlark

/-! ## `cmd/out.go` -/

namespace Cmd

/-- The struct `outFlags`. -/
structure outFlags where
  file : String
  output : String

/-- The flag values `newOutCommand` starts from. -/
def defaultFlags : outFlags := ⟨"flare.file", "out.tar.gz"⟩

/-- An open `os.File`, known by the name it was opened under. -/
structure File where
  name : String
  deriving DecidableEq, Repr

/-- The values the variable `ff io.Reader` of `runOut` can take: the nil
interface, a `strings.NewReader(s)`, or an `*os.File` (`none` being the nil
pointer). -/
inductive Reader where
  | nilReader
  | stringsReader (s : String)
  | osFile (file : Option File)
  deriving DecidableEq, Repr

/-- What `runOut` calls outside its file: `os.Open`, the package constant
`flarefile`, `script.Parse` and `exec.New(script).Execute()`. -/
structure World (Script GoError : Type) where
  osOpen : String → Except GoError File
  flarefile : String
  Parse : Reader → Except GoError Script
  Execute : Script → Option GoError

/-- A Go assignment `x = v` to a variable holding `old`. -/
def assign {α : Type} (_old : α) (v : α) : α := v

/-- What a call of `runOut` did: the lines it logged with `logrus.Warnf`, the
reader it gave to `script.Parse`, and the error it returned. -/
structure Run (GoError : Type) where
  warnings : List String
  parsed : Reader
  err : Option GoError

/-- The function `runOut(flag, args)`. -/
def runOut {Script GoError : Type} (w : World Script GoError) (flag : outFlags)
    (_args : List String) : Run GoError :=
  -- var ff io.Reader
  let ff0 : Reader := Reader.nilReader
  -- file, err := os.Open(flag.file)
  let opened := w.osOpen flag.file
  let file : Option File :=
    match opened with
    | .ok f => some f
    | .error _ => none
  -- if err != nil { logrus.Warnf(...); ff = strings.NewReader(flarefile) }
  let warnings : List String :=
    match opened with
    | .ok _ => []
    | .error _ => ["Unable find " ++ flag.file ++ ", using sensible defaults"]
  let ff1 : Reader :=
    match opened with
    | .ok _ => ff0
    | .error _ => assign ff0 (Reader.stringsReader w.flarefile)
  -- ff = file
  let ff2 : Reader := assign ff1 (Reader.osFile file)
  -- script, err := script.Parse(ff)
  match w.Parse ff2 with
  | .error err => ⟨warnings, ff2, some err⟩
  | .ok script =>
    match w.Execute script with
    | some err => ⟨warnings, ff2, some err⟩
    | none => ⟨warnings, ff2, none⟩

/-- A world for the examples: no file can be opened, and parsing reads its
input, so it fails on a nil file. -/
def missingFileWorld : World Unit String :=
  ⟨fun name => .error ("open " ++ name ++ ": no such file or directory"),
    "kube_config(path=\"/home/user/.kube/config\")",
    fun r =>
      match r with
      | Reader.stringsReader _ => .ok ()
      | Reader.osFile (some _) => .ok ()
      | _ => .error "invalid argument",
    fun _ => none⟩

end Cmd

/-! ## Lemmas on the library model -/

namespace Starlark

/-- Go's `len(s) == 0` holds of the empty string only. -/
theorem length_eq_zero_iff (s : String) : s.length = 0 ↔ s = "" := by
  cases s with
  | mk data =>
    constructor
    · intro h
      have hd : data = [] := List.length_eq_zero.mp h
      subst hd
      rfl
    · intro h
      rw [h]
      rfl

/-- A call without arguments leaves both variables at their zero value. -/
theorem UnpackArgs_nil (fnname : String) : UnpackArgs fnname [] [] = .ok ("", none) := rfl

/-- Unpacking `kube_config(path=s)`. -/
theorem UnpackArgs_path (fnname s : String) :
    UnpackArgs fnname [] [("path", Value.String s)] = .ok (s, none) := by
  simp [UnpackArgs, unpackPositional, unpackKeywords, setPath, unpackString]

/-- Unpacking `kube_config(capi_provider=p)`. -/
theorem UnpackArgs_provider (fnname : String) (p : Struct) :
    UnpackArgs fnname [] [("capi_provider", Value.Struct p)] = .ok ("", some p) := by
  simp [UnpackArgs, unpackPositional, unpackKeywords, setProvider, unpackStruct]

/-- Unpacking `kube_config(path=s, capi_provider=p)`. -/
theorem UnpackArgs_path_provider (fnname s : String) (p : Struct) :
    UnpackArgs fnname [] [("path", Value.String s), ("capi_provider", Value.Struct p)]
      = .ok (s, some p) := by
  simp [UnpackArgs, unpackPositional, unpackKeywords, setPath, setProvider, unpackString,
    unpackStruct]

/-- Unpacking `kube_config(capi_provider=p, path=s)`. -/
theorem UnpackArgs_provider_path (fnname s : String) (p : Struct) :
    UnpackArgs fnname [] [("capi_provider", Value.Struct p), ("path", Value.String s)]
      = .ok (s, some p) := by
  simp [UnpackArgs, unpackPositional, unpackKeywords, setPath, setProvider, unpackString,
    unpackStruct]

/-- A call whose arguments do not unpack returns `None` and the error, and
leaves the thread alone. -/
theorem KubeConfigFn_unpack_error (identifiers : Identifiers) (thread : Thread)
    (args : List Value) (kwargs : List (String × Value)) (err : Error)
    (h : UnpackArgs identifiers.crashdCfg args kwargs = .error err) :
    KubeConfigFn identifiers thread args kwargs
      = .ret ((None, some (Error.Errorf (identifiers.kubeCfg ++ ": " ++ err.Error))), thread) := by
  simp [KubeConfigFn, h]

/-- Both sources, or neither: the call returns the one source error. -/
theorem KubeConfigFn_bad_sources (identifiers : Identifiers) (thread : Thread)
    (args : List Value) (kwargs : List (String × Value)) (path : String)
    (provider : Option Struct)
    (h : UnpackArgs identifiers.crashdCfg args kwargs = .ok (path, provider))
    (hsrc : (path ≠ "" ∧ provider.isSome) ∨ (path = "" ∧ provider.isNone)) :
    KubeConfigFn identifiers thread args kwargs
      = .ret ((None, some (Error.New "need either path or capi_provider")), thread) := by
  have hc : (path.length = 0 ∧ provider.isNone) ∨ (path.length ≠ 0 ∧ provider.isSome) := by
    rcases hsrc with ⟨hp, hq⟩ | ⟨hp, hq⟩
    · exact Or.inr ⟨fun hl => hp ((length_eq_zero_iff path).1 hl), hq⟩
    · exact Or.inl ⟨(length_eq_zero_iff path).2 hp, hq⟩
  simp only [KubeConfigFn, h]
  rw [if_pos hc]

/-- The record `KubeConfigFn` builds around a path. -/
theorem KubeConfigFn_explicit (identifiers : Identifiers) (thread : Thread)
    (args : List Value) (kwargs : List (String × Value)) (path : String)
    (h : UnpackArgs identifiers.crashdCfg args kwargs = .ok (path, none))
    (hpath : path ≠ "") :
    KubeConfigFn identifiers thread args kwargs
      = .ret ((Value.Struct (FromStringDict Default [("path", Value.String path)]), none),
          thread.SetLocal identifiers.kubeCfg
            (Interface.value (Value.Struct (FromStringDict Default [("path", Value.String path)])))) := by
  have hl : path.length ≠ 0 := fun hl => hpath ((length_eq_zero_iff path).1 hl)
  simp [KubeConfigFn, h, hl]

/-- With a provider and no path, the call is decided by the provider block. -/
theorem KubeConfigFn_via_provider (identifiers : Identifiers) (thread : Thread)
    (args : List Value) (kwargs : List (String × Value)) (provider : Struct)
    (h : UnpackArgs identifiers.crashdCfg args kwargs = .ok ("", some provider)) :
    KubeConfigFn identifiers thread args kwargs
      = match pathFromProvider identifiers (some provider) with
        | .panic msg => .panic msg
        | .ret (.error err) => .ret ((None, some err), thread)
        | .ret (.ok path) =>
          .ret ((Value.Struct (FromStringDict Default [("path", Value.String path)]), none),
            thread.SetLocal identifiers.kubeCfg
              (Interface.value (Value.Struct (FromStringDict Default [("path", Value.String path)])))) := by
  have h0 : "".length = 0 := rfl
  simp [KubeConfigFn, h, h0]

end Starlark

namespace Starlark

/-- The record built for `path` has the string `path` as its `path` field. -/
theorem configRecord_path (path : String) :
    (configRecord path).Attr "path" = .ok (Value.String path) := by
  simp [configRecord, FromStringDict, Struct.Attr, Struct.entries, List.lookup]

/-- A slot just written reads back what was written. -/
theorem Local_SetLocal_same (thread : Thread) (key : String) (value : Interface) :
    (thread.SetLocal key value).Local key = some value := by
  simp [Thread.SetLocal, Thread.Local]

/-- A struct without the entry `name` answers `Attr` with a `NoSuchAttrError`. -/
theorem Attr_of_lookup_none (s : Struct) (name : String)
    (h : s.entries.lookup name = none) :
    s.Attr name = .error (Error.NoSuchAttrError name) := by
  simp [Struct.Attr, h]

/-- A successful call returned the record of some path and stored it. -/
theorem KubeConfigFn_success_inv (identifiers : Identifiers) (thread thread1 : Thread)
    (args : List Value) (kwargs : List (String × Value)) (v : Value)
    (h : KubeConfigFn identifiers thread args kwargs = .ret ((v, none), thread1)) :
    ∃ path, v = Value.Struct (configRecord path) ∧
      thread1 = thread.SetLocal identifiers.kubeCfg (Interface.value v) := by
  unfold KubeConfigFn at h
  split at h
  · simp at h
  · split at h
    · simp at h
    · split at h
      · dsimp only at h
        split at h
        · simp at h
        · simp at h
        · rename_i path _
          simp only [Outcome.ret.injEq, Prod.mk.injEq, and_true] at h
          obtain ⟨hv, ht⟩ := h
          exact ⟨path, hv.symm, by rw [← ht, ← hv]⟩
      · rename_i path _ _ _ _
        simp only [Outcome.ret.injEq, Prod.mk.injEq, and_true] at h
        obtain ⟨hv, ht⟩ := h
        exact ⟨path, hv.symm, by rw [← ht, ← hv]⟩

end Starlark

/-! ## The claims -/

namespace Starlark

/-- C1 (mutual exclusivity): a call of `KubeConfigFn` whose arguments unpack to
a non-empty `path` together with a `capi_provider` struct, or to neither of the
two, fails: it returns `None` with a non-nil error, and the thread is as it
was. -/
theorem kubeConfigFn_rejects_both_or_neither (identifiers : Identifiers) (thread : Thread)
    (args : List Value) (kwargs : List (String × Value)) (path : String)
    (provider : Option Struct)
    (hunpack : UnpackArgs identifiers.crashdCfg args kwargs = .ok (path, provider))
    (hsrc : (path ≠ "" ∧ provider.isSome) ∨ (path = "" ∧ provider.isNone)) :
    ∃ err : Error, KubeConfigFn identifiers thread args kwargs = .ret ((None, some err), thread) :=
  ⟨Error.New "need either path or capi_provider",
    KubeConfigFn_bad_sources identifiers thread args kwargs path provider hunpack hsrc⟩

/-- C1 at `kube_config(path="/tmp/a.yaml", capi_provider=p)` and at
`kube_config()`. -/
theorem kubeConfigFn_rejects_both_or_neither_witness :
    (∃ err : Error,
      KubeConfigFn sampleIdentifiers Thread.empty []
          [("path", Value.String "/tmp/a.yaml"), ("capi_provider", Value.Struct sampleProvider)]
        = .ret ((None, some err), Thread.empty)) ∧
    (∃ err : Error,
      KubeConfigFn sampleIdentifiers Thread.empty [] [] = .ret ((None, some err), Thread.empty)) :=
  ⟨kubeConfigFn_rejects_both_or_neither sampleIdentifiers Thread.empty []
      [("path", Value.String "/tmp/a.yaml"), ("capi_provider", Value.Struct sampleProvider)]
      "/tmp/a.yaml" (some sampleProvider) (UnpackArgs_path_provider _ _ _)
      (Or.inl ⟨by decide, rfl⟩),
    kubeConfigFn_rejects_both_or_neither sampleIdentifiers Thread.empty [] [] "" none
      (UnpackArgs_nil _) (Or.inr ⟨rfl, rfl⟩)⟩

/-- C2 (provider happy path): called with no path and a provider whose
constructor is the recognized identifier and whose `kubeconfig` attribute is the
string `p`, `KubeConfigFn` returns without error the record whose `path` field
is `p`, and the thread afterwards holds that record under `identifiers.kubeCfg`. -/
theorem kubeConfigFn_provider_happy_path (identifiers : Identifiers) (thread : Thread)
    (args : List Value) (kwargs : List (String × Value)) (provider : Struct) (p : String)
    (hunpack : UnpackArgs identifiers.crashdCfg args kwargs = .ok ("", some provider))
    (hctor : provider.Constructor = Value.String identifiers.capvProvider)
    (hattr : provider.Attr "kubeconfig" = .ok (Value.String p)) :
    ∃ thread1 : Thread,
      KubeConfigFn identifiers thread args kwargs
        = .ret ((Value.Struct (configRecord p), none), thread1) ∧
      (configRecord p).Attr "path" = .ok (Value.String p) ∧
      thread1.Local identifiers.kubeCfg = some (Interface.value (Value.Struct (configRecord p))) := by
  refine ⟨thread.SetLocal identifiers.kubeCfg (Interface.value (Value.Struct (configRecord p))),
    ?_, configRecord_path p, Local_SetLocal_same _ _ _⟩
  rw [KubeConfigFn_via_provider identifiers thread args kwargs provider hunpack]
  simp [pathFromProvider, checkConstructor, hctor, hattr, configRecord]

/-- C2 at `kube_config(capi_provider=p)` with `p.kubeconfig = "/tmp/a.yaml"`. -/
theorem kubeConfigFn_provider_happy_path_witness :
    ∃ thread1 : Thread,
      KubeConfigFn sampleIdentifiers Thread.empty []
          [("capi_provider", Value.Struct sampleProvider)]
        = .ret ((Value.Struct (configRecord "/tmp/a.yaml"), none), thread1) ∧
      (configRecord "/tmp/a.yaml").Attr "path" = .ok (Value.String "/tmp/a.yaml") ∧
      thread1.Local sampleIdentifiers.kubeCfg
        = some (Interface.value (Value.Struct (configRecord "/tmp/a.yaml"))) :=
  kubeConfigFn_provider_happy_path sampleIdentifiers Thread.empty []
    [("capi_provider", Value.Struct sampleProvider)] sampleProvider "/tmp/a.yaml"
    (UnpackArgs_provider _ _) rfl
    (by simp [sampleProvider, Struct.Attr, Struct.entries, List.lookup])

/-- C3 (explicit path, verbatim): called with a non-empty `path` string `s` and
no provider, `KubeConfigFn` returns without error the record whose `path` field
is `s` itself, whatever `s` is, and the thread afterwards holds that record
under `identifiers.kubeCfg`. -/
theorem kubeConfigFn_explicit_path_verbatim (identifiers : Identifiers) (thread : Thread)
    (args : List Value) (kwargs : List (String × Value)) (s : String)
    (hunpack : UnpackArgs identifiers.crashdCfg args kwargs = .ok (s, none))
    (hs : s ≠ "") :
    ∃ thread1 : Thread,
      KubeConfigFn identifiers thread args kwargs
        = .ret ((Value.Struct (configRecord s), none), thread1) ∧
      (configRecord s).Attr "path" = .ok (Value.String s) ∧
      thread1.Local identifiers.kubeCfg = some (Interface.value (Value.Struct (configRecord s))) :=
  ⟨thread.SetLocal identifiers.kubeCfg (Interface.value (Value.Struct (configRecord s))),
    KubeConfigFn_explicit identifiers thread args kwargs s hunpack hs,
    configRecord_path s, Local_SetLocal_same _ _ _⟩

/-- C3 at `kube_config(path="no such dir/kube.conf")`. -/
theorem kubeConfigFn_explicit_path_verbatim_witness :
    ∃ thread1 : Thread,
      KubeConfigFn sampleIdentifiers Thread.empty []
          [("path", Value.String "no such dir/kube.conf")]
        = .ret ((Value.Struct (configRecord "no such dir/kube.conf"), none), thread1) ∧
      (configRecord "no such dir/kube.conf").Attr "path"
        = .ok (Value.String "no such dir/kube.conf") ∧
      thread1.Local sampleIdentifiers.kubeCfg
        = some (Interface.value (Value.Struct (configRecord "no such dir/kube.conf"))) :=
  kubeConfigFn_explicit_path_verbatim sampleIdentifiers Thread.empty []
    [("path", Value.String "no such dir/kube.conf")] "no such dir/kube.conf"
    (UnpackArgs_path _ _) (by decide)

end Starlark

namespace Starlark

/-- C4 (default propagation): after a call of `KubeConfigFn` that returned
without error a record whose `path` field is `p`, `getKubeConfigPath` on the
thread the call left, for a directive struct without a `kube_config` attribute,
returns `p` and a nil error. -/
theorem default_propagation (identifiers : Identifiers) (thread thread1 : Thread)
    (args : List Value) (kwargs : List (String × Value)) (record directive : Struct)
    (p : String)
    (hcall : KubeConfigFn identifiers thread args kwargs
      = .ret ((Value.Struct record, none), thread1))
    (hpath : record.Attr "path" = .ok (Value.String p))
    (hno : directive.entries.lookup "kube_config" = none) :
    getKubeConfigPath identifiers thread1 directive = .ret (p, none) := by
  obtain ⟨_, -, ht⟩ :=
    KubeConfigFn_success_inv identifiers thread thread1 args kwargs (Value.Struct record) hcall
  simp [getKubeConfigPath, Attr_of_lookup_none directive "kube_config" hno, ht,
    Local_SetLocal_same, kubeConfigPathOf, getKubeConfigFromStruct, hpath]

/-- C4 at `kube_config(path="/tmp/a.yaml")` followed by a directive that names
no `kube_config`. -/
theorem default_propagation_witness :
    getKubeConfigPath sampleIdentifiers (threadWithDefault "/tmp/a.yaml") plainDirective
      = .ret ("/tmp/a.yaml", none) :=
  default_propagation sampleIdentifiers Thread.empty (threadWithDefault "/tmp/a.yaml") []
    [("path", Value.String "/tmp/a.yaml")] (configRecord "/tmp/a.yaml") plainDirective
    "/tmp/a.yaml"
    (KubeConfigFn_explicit sampleIdentifiers Thread.empty [] _ "/tmp/a.yaml"
      (UnpackArgs_path _ _) (by decide))
    (configRecord_path _)
    (by simp [plainDirective, Struct.entries, List.lookup])

/-- C5 (override precedence): for a directive struct whose `kube_config`
attribute is a record with the string `q` as `path` field, `getKubeConfigPath`
returns `q` and a nil error on every thread, whatever default the thread holds
or lacks. -/
theorem override_precedence (identifiers : Identifiers) (thread : Thread)
    (directive record : Struct) (q : String)
    (hattr : directive.Attr "kube_config" = .ok (Value.Struct record))
    (hpath : record.Attr "path" = .ok (Value.String q)) :
    getKubeConfigPath identifiers thread directive = .ret (q, none) := by
  simp [getKubeConfigPath, hattr, kubeConfigPathOf, getKubeConfigFromStruct, hpath]

/-- C5 on a thread whose default is another path, and on a thread without a
default. -/
theorem override_precedence_witness :
    getKubeConfigPath sampleIdentifiers (threadWithDefault "/tmp/default.yaml")
        overridingDirective = .ret ("/etc/own.yaml", none) ∧
    getKubeConfigPath sampleIdentifiers Thread.empty overridingDirective
      = .ret ("/etc/own.yaml", none) :=
  ⟨override_precedence sampleIdentifiers (threadWithDefault "/tmp/default.yaml")
      overridingDirective (configRecord "/etc/own.yaml") "/etc/own.yaml"
      (by simp [overridingDirective, Struct.Attr, Struct.entries, List.lookup])
      (configRecord_path _),
    override_precedence sampleIdentifiers Thread.empty
      overridingDirective (configRecord "/etc/own.yaml") "/etc/own.yaml"
      (by simp [overridingDirective, Struct.Attr, Struct.entries, List.lookup])
      (configRecord_path _)⟩

/-- C6 (no configuration available), as the code has it: for a directive struct
without a `kube_config` attribute, on a thread that holds nothing under
`identifiers.kubeCfg`, `getKubeConfigPath` does not return an error; the
assertion `kubeConfigData.(starlark.Value)` panics on the nil interface. -/
theorem getKubeConfigPath_no_default_panics (identifiers : Identifiers) (thread : Thread)
    (directive : Struct)
    (hno : directive.entries.lookup "kube_config" = none)
    (habsent : thread.Local identifiers.kubeCfg = none) :
    getKubeConfigPath identifiers thread directive
      = .panic "interface conversion: interface is nil, not starlark.Value" := by
  simp [getKubeConfigPath, Attr_of_lookup_none directive "kube_config" hno, habsent]

/-- C6 on a fresh thread. -/
theorem getKubeConfigPath_no_default_panics_witness :
    getKubeConfigPath sampleIdentifiers Thread.empty plainDirective
      = .panic "interface conversion: interface is nil, not starlark.Value" :=
  getKubeConfigPath_no_default_panics sampleIdentifiers Thread.empty plainDirective
    (by simp [plainDirective, Struct.entries, List.lookup]) rfl

end Starlark

namespace Cmd

/-- C7 (missing script file), as the code has it: whatever `os.Open` answers,
the reader `runOut` gives to `script.Parse` is the `*os.File` that `os.Open`
returned, which is the nil pointer when opening failed; it is never a reader
over `flarefile`, and the warning is logged all the same. -/
theorem runOut_parses_the_opened_file {Script GoError : Type} (w : World Script GoError)
    (flag : outFlags) (args : List String) :
    (runOut w flag args).parsed
        = Reader.osFile (match w.osOpen flag.file with
            | .ok f => some f
            | .error _ => none) ∧
      (runOut w flag args).parsed ≠ Reader.stringsReader w.flarefile ∧
      (runOut w flag args).warnings
        = (match w.osOpen flag.file with
            | .ok _ => []
            | .error _ => ["Unable find " ++ flag.file ++ ", using sensible defaults"]) := by
  have hp : (runOut w flag args).parsed
      = Reader.osFile (match w.osOpen flag.file with
          | .ok f => some f
          | .error _ => none) := by
    unfold runOut
    simp only [assign]
    split
    · rfl
    · split <;> rfl
  refine ⟨hp, ?_, ?_⟩
  · rw [hp]
    exact fun h => Reader.noConfusion h
  · unfold runOut
    simp only [assign]
    split
    · rfl
    · split <;> rfl

/-- C7 at a `--file` that cannot be opened: `script.Parse` gets the nil file,
and `runOut` returns the error of parsing it. -/
theorem runOut_missing_file_fails :
    (runOut missingFileWorld defaultFlags []).parsed = Reader.osFile none ∧
      (runOut missingFileWorld defaultFlags []).err = some "invalid argument" :=
  ⟨(runOut_parses_the_opened_file missingFileWorld defaultFlags []).1, rfl⟩

end Cmd

namespace Starlark

/-- C8 (unrecognized provider): called with no path and a provider whose
constructor is a string other than `identifiers.capvProvider`, `KubeConfigFn`
returns `None` with the error "unknown capi provider", whatever attributes the
provider has, and leaves the thread as it was. -/
theorem kubeConfigFn_unknown_provider (identifiers : Identifiers) (thread : Thread)
    (args : List Value) (kwargs : List (String × Value)) (provider : Struct) (tag : String)
    (hunpack : UnpackArgs identifiers.crashdCfg args kwargs = .ok ("", some provider))
    (hctor : provider.Constructor = Value.String tag)
    (htag : tag ≠ identifiers.capvProvider) :
    KubeConfigFn identifiers thread args kwargs
      = .ret ((None, some (Error.New "unknown capi provider")), thread) := by
  rw [KubeConfigFn_via_provider identifiers thread args kwargs provider hunpack]
  simp [pathFromProvider, checkConstructor, hctor, htag]

/-- C8 at `kube_config(capi_provider=p)` with `p` tagged `"other"`. -/
theorem kubeConfigFn_unknown_provider_witness :
    KubeConfigFn sampleIdentifiers Thread.empty [] [("capi_provider", Value.Struct otherProvider)]
      = .ret ((None, some (Error.New "unknown capi provider")), Thread.empty) :=
  kubeConfigFn_unknown_provider sampleIdentifiers Thread.empty []
    [("capi_provider", Value.Struct otherProvider)] otherProvider "other"
    (UnpackArgs_provider _ _) rfl (by decide)

/-- C9 as stated fails: a provider whose constructor is not a string, here a
built-in function, is not checked, and its `kubeconfig` attribute becomes the
resolved configuration. -/
theorem non_string_constructor_is_trusted :
    builtinTaggedProvider.Constructor ≠ Value.String sampleIdentifiers.capvProvider ∧
    KubeConfigFn sampleIdentifiers Thread.empty []
        [("capi_provider", Value.Struct builtinTaggedProvider)]
      = .ret ((Value.Struct (configRecord "/tmp/a.yaml"), none),
          Thread.empty.SetLocal sampleIdentifiers.kubeCfg
            (Interface.value (Value.Struct (configRecord "/tmp/a.yaml")))) := by
  constructor
  · exact fun h => Value.noConfusion h
  · rw [KubeConfigFn_via_provider sampleIdentifiers Thread.empty [] _ builtinTaggedProvider
      (UnpackArgs_provider _ _)]
    simp [pathFromProvider, checkConstructor, builtinTaggedProvider, Struct.Constructor,
      Struct.Attr, Struct.entries, List.lookup, configRecord]

/-- A successful call through a provider: the provider's constructor is no
string other than `identifiers.capvProvider`, and the returned record is the one
for the string its `kubeconfig` attribute holds. -/
theorem provider_success_inv (identifiers : Identifiers) (thread thread1 : Thread)
    (args : List Value) (kwargs : List (String × Value)) (provider : Struct) (v : Value)
    (hunpack : UnpackArgs identifiers.crashdCfg args kwargs = .ok ("", some provider))
    (hcall : KubeConfigFn identifiers thread args kwargs = .ret ((v, none), thread1)) :
    (∀ tag : String, provider.Constructor = Value.String tag → tag = identifiers.capvProvider) ∧
      ∃ p : String, provider.Attr "kubeconfig" = .ok (Value.String p) ∧
        v = Value.Struct (configRecord p) := by
  rw [KubeConfigFn_via_provider identifiers thread args kwargs provider hunpack] at hcall
  constructor
  · intro tag htag
    by_contra hne
    simp [pathFromProvider, checkConstructor, htag, hne] at hcall
  · unfold pathFromProvider at hcall
    dsimp only at hcall
    split at hcall
    · simp at hcall
    · simp at hcall
    · rename_i path hres
      split at hres
      · simp at hres
      · split at hres
        · simp at hres
        · rename_i pathVal hattr
          split at hres
          · rename_i pathStr
            simp only [Outcome.ret.injEq, Except.ok.injEq] at hres
            simp only [Outcome.ret.injEq, Prod.mk.injEq, and_true] at hcall
            exact ⟨pathStr, hattr, by rw [← hcall.1, hres]; rfl⟩
          · simp at hres

/-- The constructor check lets every constructor that is not a string pass. -/
theorem checkConstructor_non_string (identifiers : Identifiers) (val : Value)
    (h : ∀ tag : String, val ≠ Value.String tag) : checkConstructor identifiers val = none := by
  cases val with
  | String tag => exact absurd rfl (h tag)
  | _ => rfl

/-- C9, amended (invariant I2 holds for string tags only): for a call of
`KubeConfigFn` with no path and a provider, (1) when the call returns without
error, the provider's constructor is not a string other than
`identifiers.capvProvider` (it is that string, or no string at all) and the
returned record is the one for the string its `kubeconfig` attribute holds;
(2) when the constructor is a string other than `identifiers.capvProvider`, the
call returns the error "unknown capi provider" and writes nothing; (3) when the
constructor is not a string, the check lets it pass, and a `kubeconfig`
attribute that is the string `p` is resolved: the call returns the record for
`p` and stores it under `identifiers.kubeCfg`. -/
theorem provider_success_tag (identifiers : Identifiers) (thread : Thread)
    (args : List Value) (kwargs : List (String × Value)) (provider : Struct)
    (hunpack : UnpackArgs identifiers.crashdCfg args kwargs = .ok ("", some provider)) :
    (∀ (v : Value) (thread1 : Thread),
      KubeConfigFn identifiers thread args kwargs = .ret ((v, none), thread1) →
      (∀ tag : String, provider.Constructor = Value.String tag →
        tag = identifiers.capvProvider) ∧
      ∃ p : String, provider.Attr "kubeconfig" = .ok (Value.String p) ∧
        v = Value.Struct (configRecord p)) ∧
    (∀ tag : String, provider.Constructor = Value.String tag →
      tag ≠ identifiers.capvProvider →
      KubeConfigFn identifiers thread args kwargs
        = .ret ((None, some (Error.New "unknown capi provider")), thread)) ∧
    ((∀ tag : String, provider.Constructor ≠ Value.String tag) →
      checkConstructor identifiers provider.Constructor = none ∧
      ∀ p : String, provider.Attr "kubeconfig" = .ok (Value.String p) →
        KubeConfigFn identifiers thread args kwargs
          = .ret ((Value.Struct (configRecord p), none),
              thread.SetLocal identifiers.kubeCfg
                (Interface.value (Value.Struct (configRecord p))))) := by
  refine ⟨fun v thread1 hcall =>
    provider_success_inv identifiers thread thread1 args kwargs provider v hunpack hcall,
    fun tag htag hne => ?_, fun hnot => ?_⟩
  · rw [KubeConfigFn_via_provider identifiers thread args kwargs provider hunpack]
    simp [pathFromProvider, checkConstructor, htag, hne]
  · have hcheck := checkConstructor_non_string identifiers provider.Constructor hnot
    refine ⟨hcheck, fun p hattr => ?_⟩
    rw [KubeConfigFn_via_provider identifiers thread args kwargs provider hunpack]
    simp [pathFromProvider, hcheck, hattr, configRecord]

/-- C9 amended, at `kube_config(capi_provider=p)`: with `p` tagged
`"capv_provider"` the call succeeds and the tag is the recognized one; with a
`p` whose constructor is `None` the tag is not checked and the call resolves to
the provider's `kubeconfig`, "/tmp/b.yaml". -/
theorem provider_success_tag_witness :
    ((∀ tag : String, sampleProvider.Constructor = Value.String tag →
        tag = sampleIdentifiers.capvProvider) ∧
      ∃ p : String, sampleProvider.Attr "kubeconfig" = .ok (Value.String p) ∧
        Value.Struct (configRecord "/tmp/a.yaml") = Value.Struct (configRecord p)) ∧
    checkConstructor sampleIdentifiers noneTaggedProvider.Constructor = none ∧
    KubeConfigFn sampleIdentifiers Thread.empty []
        [("capi_provider", Value.Struct noneTaggedProvider)]
      = .ret ((Value.Struct (configRecord "/tmp/b.yaml"), none),
          Thread.empty.SetLocal sampleIdentifiers.kubeCfg
            (Interface.value (Value.Struct (configRecord "/tmp/b.yaml")))) :=
  ⟨(provider_success_tag sampleIdentifiers Thread.empty []
      [("capi_provider", Value.Struct sampleProvider)] sampleProvider
      (UnpackArgs_provider _ _)).1 (Value.Struct (configRecord "/tmp/a.yaml"))
      (Thread.empty.SetLocal sampleIdentifiers.kubeCfg
        (Interface.value (Value.Struct (configRecord "/tmp/a.yaml"))))
      (by
        rw [KubeConfigFn_via_provider sampleIdentifiers Thread.empty [] _ sampleProvider
          (UnpackArgs_provider _ _)]
        simp [pathFromProvider, checkConstructor, sampleProvider, sampleIdentifiers,
          Struct.Constructor, Struct.Attr, Struct.entries, List.lookup, configRecord]),
    ((provider_success_tag sampleIdentifiers Thread.empty []
      [("capi_provider", Value.Struct noneTaggedProvider)] noneTaggedProvider
      (UnpackArgs_provider _ _)).2.2 (fun _ h => Value.noConfusion h)).1,
    ((provider_success_tag sampleIdentifiers Thread.empty []
      [("capi_provider", Value.Struct noneTaggedProvider)] noneTaggedProvider
      (UnpackArgs_provider _ _)).2.2 (fun _ h => Value.noConfusion h)).2 "/tmp/b.yaml"
      (by simp [noneTaggedProvider, Struct.Attr, Struct.entries, List.lookup])⟩

/-- C10 (provider attribute errors): called with no path and a provider that
carries the recognized tag, `KubeConfigFn` returns `None` with the wrapped
`NoSuchAttrError` "could not find the kubeconfig attribute" when the provider
has no `kubeconfig` attribute, and `None` with the error "could not fetch
kubeconfig" when the attribute is there and is no string; the two errors are
different values, and the thread is as it was in both cases. -/
theorem kubeConfigFn_provider_attribute_errors (identifiers : Identifiers) (thread : Thread)
    (args : List Value) (kwargs : List (String × Value)) (provider : Struct)
    (hunpack : UnpackArgs identifiers.crashdCfg args kwargs = .ok ("", some provider))
    (hctor : provider.Constructor = Value.String identifiers.capvProvider) :
    (provider.entries.lookup "kubeconfig" = none →
      KubeConfigFn identifiers thread args kwargs
        = .ret ((None, some (Error.Wrap (Error.NoSuchAttrError "kubeconfig")
            "could not find the kubeconfig attribute")), thread)) ∧
    (∀ pathVal : Value, provider.Attr "kubeconfig" = .ok pathVal →
      (∀ s : String, pathVal ≠ Value.String s) →
      KubeConfigFn identifiers thread args kwargs
        = .ret ((None, some (Error.New "could not fetch kubeconfig")), thread)) ∧
    Error.Wrap (Error.NoSuchAttrError "kubeconfig") "could not find the kubeconfig attribute"
      ≠ Error.New "could not fetch kubeconfig" := by
  refine ⟨?_, ?_, fun h => Error.noConfusion h⟩
  · intro hnone
    rw [KubeConfigFn_via_provider identifiers thread args kwargs provider hunpack]
    simp [pathFromProvider, checkConstructor, hctor,
      Attr_of_lookup_none provider "kubeconfig" hnone]
  · intro pathVal hattr hnot
    rw [KubeConfigFn_via_provider identifiers thread args kwargs provider hunpack]
    cases pathVal with
    | String s => exact absurd rfl (hnot s)
    | _ => simp [pathFromProvider, checkConstructor, hctor, hattr]

/-- C10 at a provider without `kubeconfig` and at one whose `kubeconfig` is the
int 7. -/
theorem kubeConfigFn_provider_attribute_errors_witness :
    KubeConfigFn sampleIdentifiers Thread.empty []
        [("capi_provider", Value.Struct providerWithoutKubeconfig)]
      = .ret ((None, some (Error.Wrap (Error.NoSuchAttrError "kubeconfig")
          "could not find the kubeconfig attribute")), Thread.empty) ∧
    KubeConfigFn sampleIdentifiers Thread.empty []
        [("capi_provider", Value.Struct providerWithIntKubeconfig)]
      = .ret ((None, some (Error.New "could not fetch kubeconfig")), Thread.empty) :=
  ⟨(kubeConfigFn_provider_attribute_errors sampleIdentifiers Thread.empty []
      [("capi_provider", Value.Struct providerWithoutKubeconfig)] providerWithoutKubeconfig
      (UnpackArgs_provider _ _) rfl).1
      (by simp [providerWithoutKubeconfig, Struct.entries, List.lookup]),
    (kubeConfigFn_provider_attribute_errors sampleIdentifiers Thread.empty []
      [("capi_provider", Value.Struct providerWithIntKubeconfig)] providerWithIntKubeconfig
      (UnpackArgs_provider _ _) rfl).2.1 (Value.Int 7)
      (by simp [providerWithIntKubeconfig, Struct.Attr, Struct.entries, List.lookup])
      (fun _ h => Value.noConfusion h)⟩

end Starlark

/-! ## Lemmas on the thread and on the shape of a call -/

namespace Starlark

/-- A second write to a slot replaces the first. -/
theorem SetLocal_SetLocal (thread : Thread) (key : String) (a b : Interface) :
    (thread.SetLocal key a).SetLocal key b = thread.SetLocal key b := by
  unfold Thread.SetLocal
  congr 1
  funext k
  by_cases hk : k = key <;> simp [hk]

/-- A write to one slot leaves every other slot as it was. -/
theorem Local_SetLocal_other (thread : Thread) (key other : String) (value : Interface)
    (h : other ≠ key) : (thread.SetLocal key value).Local other = thread.Local other := by
  simp [Thread.SetLocal, Thread.Local, h]

/-- The provider block panics on a nil provider only. -/
theorem pathFromProvider_some (identifiers : Identifiers) (provider : Struct) :
    ∃ r : Except Error String, pathFromProvider identifiers (some provider) = .ret r := by
  unfold pathFromProvider
  dsimp only
  split
  · exact ⟨_, rfl⟩
  · split
    · exact ⟨_, rfl⟩
    · split <;> exact ⟨_, rfl⟩

/-- The two ways a call of `KubeConfigFn` ends, on every thread alike: it
returns `None` with an error and the thread it was given, or it returns the
record of a path and the thread with that record written under
`identifiers.kubeCfg`. It never panics. -/
theorem KubeConfigFn_cases (identifiers : Identifiers) (args : List Value)
    (kwargs : List (String × Value)) :
    (∃ err : Error, ∀ thread : Thread,
      KubeConfigFn identifiers thread args kwargs = .ret ((None, some err), thread)) ∨
    (∃ path : String, ∀ thread : Thread,
      KubeConfigFn identifiers thread args kwargs
        = .ret ((Value.Struct (configRecord path), none),
            thread.SetLocal identifiers.kubeCfg
              (Interface.value (Value.Struct (configRecord path))))) := by
  cases hU : UnpackArgs identifiers.crashdCfg args kwargs with
  | error err =>
    exact Or.inl ⟨_, fun thread => KubeConfigFn_unpack_error identifiers thread args kwargs err hU⟩
  | ok pp =>
    obtain ⟨path, provider⟩ := pp
    by_cases hpath : path = ""
    · subst hpath
      cases provider with
      | none =>
        exact Or.inl ⟨_, fun thread =>
          KubeConfigFn_bad_sources identifiers thread args kwargs "" none hU (Or.inr ⟨rfl, rfl⟩)⟩
      | some p =>
        obtain ⟨r, hr⟩ := pathFromProvider_some identifiers p
        cases r with
        | error err =>
          refine Or.inl ⟨err, fun thread => ?_⟩
          rw [KubeConfigFn_via_provider identifiers thread args kwargs p hU, hr]
        | ok path =>
          refine Or.inr ⟨path, fun thread => ?_⟩
          rw [KubeConfigFn_via_provider identifiers thread args kwargs p hU, hr]
          rfl
    · cases provider with
      | none =>
        exact Or.inr ⟨path, fun thread =>
          KubeConfigFn_explicit identifiers thread args kwargs path hU hpath⟩
      | some p =>
        exact Or.inl ⟨_, fun thread =>
          KubeConfigFn_bad_sources identifiers thread args kwargs path (some p) hU
            (Or.inl ⟨hpath, rfl⟩)⟩

end Starlark

namespace Starlark

/-- A call that succeeded on one thread succeeds on every thread, with the same
record, which it writes under `identifiers.kubeCfg`. -/
theorem KubeConfigFn_success_any_thread (identifiers : Identifiers) (thread thread1 : Thread)
    (args : List Value) (kwargs : List (String × Value)) (v : Value)
    (h : KubeConfigFn identifiers thread args kwargs = .ret ((v, none), thread1)) :
    ∀ other : Thread, KubeConfigFn identifiers other args kwargs
      = .ret ((v, none), other.SetLocal identifiers.kubeCfg (Interface.value v)) := by
  rcases KubeConfigFn_cases identifiers args kwargs with ⟨err, hall⟩ | ⟨path, hall⟩
  · rw [hall thread] at h
    simp at h
  · rw [hall thread] at h
    simp only [Outcome.ret.injEq, Prod.mk.injEq, and_true] at h
    intro other
    rw [hall other, h.1]

/-- A call that returned an error left the thread as it was. -/
theorem KubeConfigFn_error_thread (identifiers : Identifiers) (thread thread1 : Thread)
    (args : List Value) (kwargs : List (String × Value)) (v : Value) (err : Error)
    (h : KubeConfigFn identifiers thread args kwargs = .ret ((v, some err), thread1)) :
    thread1 = thread := by
  rcases KubeConfigFn_cases identifiers args kwargs with ⟨err1, hall⟩ | ⟨path, hall⟩
  · rw [hall thread] at h
    simp only [Outcome.ret.injEq, Prod.mk.injEq] at h
    exact h.2.symm
  · rw [hall thread] at h
    simp at h

/-- Reading the default: with a record under `identifiers.kubeCfg` whose `path`
is the string `p`, a directive without `kube_config` gets `p`. -/
theorem getKubeConfigPath_default (identifiers : Identifiers) (thread : Thread)
    (directive record : Struct) (p : String)
    (hdef : thread.Local identifiers.kubeCfg = some (Interface.value (Value.Struct record)))
    (hpath : record.Attr "path" = .ok (Value.String p))
    (hno : directive.entries.lookup "kube_config" = none) :
    getKubeConfigPath identifiers thread directive = .ret (p, none) := by
  simp [getKubeConfigPath, Attr_of_lookup_none directive "kube_config" hno, hdef,
    kubeConfigPathOf, getKubeConfigFromStruct, hpath]

/-- A record without a string `path` field yields an error and no path. -/
theorem getKubeConfigFromStruct_error (record : Struct)
    (h : ∀ q : String, record.Attr "path" ≠ .ok (Value.String q)) :
    ∃ err : Error, getKubeConfigFromStruct record = ("", some err) := by
  unfold getKubeConfigFromStruct
  split
  · exact ⟨_, rfl⟩
  · rename_i kvPathVal hattr
    split
    · rename_i q
      exact absurd hattr (h q)
    · exact ⟨_, rfl⟩

end Starlark

/-! ## The claims, continued -/

namespace Starlark

/-- C11 as stated fails: with the default record for "/tmp/default.yaml" in
place, a directive whose `kube_config` is a record without a `path` field does
not get the default; `getKubeConfigPath` returns the extraction error. -/
theorem record_without_path_does_not_fall_through :
    (threadWithDefault "/tmp/default.yaml").Local sampleIdentifiers.kubeCfg
        = some (Interface.value (Value.Struct (configRecord "/tmp/default.yaml"))) ∧
    getKubeConfigPath sampleIdentifiers (threadWithDefault "/tmp/default.yaml")
        directiveWithEmptyRecord
      = .ret ("", some (Error.Wrap (Error.NoSuchAttrError "path")
          "failed to extract kubeconfig path")) ∧
    getKubeConfigPath sampleIdentifiers (threadWithDefault "/tmp/default.yaml")
        directiveWithEmptyRecord
      ≠ .ret ("/tmp/default.yaml", none) := by
  have hget : getKubeConfigPath sampleIdentifiers (threadWithDefault "/tmp/default.yaml")
      directiveWithEmptyRecord
      = .ret ("", some (Error.Wrap (Error.NoSuchAttrError "path")
          "failed to extract kubeconfig path")) := by
    simp [getKubeConfigPath, directiveWithEmptyRecord, Struct.Attr, Struct.entries, List.lookup,
      kubeConfigPathOf, getKubeConfigFromStruct]
  refine ⟨Local_SetLocal_same _ _ _, hget, ?_⟩
  rw [hget]
  simp

/-- C11, amended (fall-through on a missing override only): on a thread whose
default under `identifiers.kubeCfg` is a record with the string `p` as `path`,
a directive struct without a `kube_config` attribute gets `p` and a nil error;
a directive whose `kube_config` is a record without a string `path` field does
not fall through, it gets an empty path and a non-nil error. -/
theorem fall_through_on_missing_override (identifiers : Identifiers) (thread : Thread)
    (directive dflt : Struct) (p : String)
    (hdef : thread.Local identifiers.kubeCfg = some (Interface.value (Value.Struct dflt)))
    (hpath : dflt.Attr "path" = .ok (Value.String p)) :
    (directive.entries.lookup "kube_config" = none →
      getKubeConfigPath identifiers thread directive = .ret (p, none)) ∧
    (∀ record : Struct, directive.Attr "kube_config" = .ok (Value.Struct record) →
      (∀ q : String, record.Attr "path" ≠ .ok (Value.String q)) →
      ∃ err : Error, getKubeConfigPath identifiers thread directive = .ret ("", some err)) := by
  constructor
  · exact getKubeConfigPath_default identifiers thread directive dflt p hdef hpath
  · intro record hattr hnot
    obtain ⟨err, herr⟩ := getKubeConfigFromStruct_error record hnot
    exact ⟨err, by simp [getKubeConfigPath, hattr, kubeConfigPathOf, herr]⟩

/-- C11 amended, at the default "/tmp/default.yaml": a directive without
`kube_config` gets it, a directive with an empty record gets an error. -/
theorem fall_through_on_missing_override_witness :
    getKubeConfigPath sampleIdentifiers (threadWithDefault "/tmp/default.yaml") plainDirective
      = .ret ("/tmp/default.yaml", none) ∧
    ∃ err : Error,
      getKubeConfigPath sampleIdentifiers (threadWithDefault "/tmp/default.yaml")
        directiveWithEmptyRecord = .ret ("", some err) :=
  ⟨(fall_through_on_missing_override sampleIdentifiers (threadWithDefault "/tmp/default.yaml")
      plainDirective (configRecord "/tmp/default.yaml") "/tmp/default.yaml"
      (Local_SetLocal_same _ _ _) (configRecord_path _)).1
      (by simp [plainDirective, Struct.entries, List.lookup]),
    (fall_through_on_missing_override sampleIdentifiers (threadWithDefault "/tmp/default.yaml")
      directiveWithEmptyRecord (configRecord "/tmp/default.yaml") "/tmp/default.yaml"
      (Local_SetLocal_same _ _ _) (configRecord_path _)).2 (Struct.mk Default [])
      (by simp [directiveWithEmptyRecord, Struct.Attr, Struct.entries, List.lookup])
      (by simp [Struct.Attr, Struct.entries, List.lookup])⟩

/-- C12 (last write wins): after two successive successful calls of
`KubeConfigFn`, the second returning a record whose `path` is `p2`, the thread
is the one the second call alone would have left: its slot under
`identifiers.kubeCfg` holds the second record, and `getKubeConfigPath` without
an override returns `p2`; and making the first call once more on the thread it
left returns the same record and leaves that same thread. -/
theorem last_write_wins (identifiers : Identifiers) (thread thread1 thread2 : Thread)
    (args1 args2 : List Value) (kwargs1 kwargs2 : List (String × Value)) (v1 : Value)
    (record2 directive : Struct) (p2 : String)
    (hcall1 : KubeConfigFn identifiers thread args1 kwargs1 = .ret ((v1, none), thread1))
    (hcall2 : KubeConfigFn identifiers thread1 args2 kwargs2
      = .ret ((Value.Struct record2, none), thread2))
    (hpath : record2.Attr "path" = .ok (Value.String p2))
    (hno : directive.entries.lookup "kube_config" = none) :
    thread2 = thread.SetLocal identifiers.kubeCfg (Interface.value (Value.Struct record2)) ∧
    thread2.Local identifiers.kubeCfg = some (Interface.value (Value.Struct record2)) ∧
    getKubeConfigPath identifiers thread2 directive = .ret (p2, none) ∧
    KubeConfigFn identifiers thread1 args1 kwargs1 = .ret ((v1, none), thread1) := by
  obtain ⟨_, -, ht1⟩ :=
    KubeConfigFn_success_inv identifiers thread thread1 args1 kwargs1 v1 hcall1
  obtain ⟨_, -, ht2⟩ :=
    KubeConfigFn_success_inv identifiers thread1 thread2 args2 kwargs2 _ hcall2
  have h2 : thread2
      = thread.SetLocal identifiers.kubeCfg (Interface.value (Value.Struct record2)) := by
    rw [ht2, ht1, SetLocal_SetLocal]
  have hloc : thread2.Local identifiers.kubeCfg
      = some (Interface.value (Value.Struct record2)) := by
    rw [h2]
    exact Local_SetLocal_same _ _ _
  refine ⟨h2, hloc, ?_, ?_⟩
  · exact getKubeConfigPath_default identifiers thread2 directive record2 p2 hloc hpath hno
  · rw [KubeConfigFn_success_any_thread identifiers thread thread1 args1 kwargs1 v1
      hcall1 thread1]
    conv_lhs => rw [ht1, SetLocal_SetLocal, ← ht1]

/-- C12 at `kube_config(path="/tmp/a.yaml")` followed by
`kube_config(path="/tmp/b.yaml")`, and at `kube_config(path="/tmp/a.yaml")`
made twice. -/
theorem last_write_wins_witness :
    threadWithDefault "/tmp/b.yaml"
      = Thread.empty.SetLocal sampleIdentifiers.kubeCfg
          (Interface.value (Value.Struct (configRecord "/tmp/b.yaml"))) ∧
    (threadWithDefault "/tmp/b.yaml").Local sampleIdentifiers.kubeCfg
      = some (Interface.value (Value.Struct (configRecord "/tmp/b.yaml"))) ∧
    getKubeConfigPath sampleIdentifiers (threadWithDefault "/tmp/b.yaml") plainDirective
      = .ret ("/tmp/b.yaml", none) ∧
    KubeConfigFn sampleIdentifiers (threadWithDefault "/tmp/a.yaml") []
        [("path", Value.String "/tmp/a.yaml")]
      = .ret ((Value.Struct (configRecord "/tmp/a.yaml"), none),
          threadWithDefault "/tmp/a.yaml") :=
  last_write_wins sampleIdentifiers Thread.empty (threadWithDefault "/tmp/a.yaml")
    (threadWithDefault "/tmp/b.yaml") [] [] [("path", Value.String "/tmp/a.yaml")]
    [("path", Value.String "/tmp/b.yaml")] (Value.Struct (configRecord "/tmp/a.yaml"))
    (configRecord "/tmp/b.yaml") plainDirective "/tmp/b.yaml"
    (KubeConfigFn_explicit sampleIdentifiers Thread.empty [] _ "/tmp/a.yaml"
      (UnpackArgs_path _ _) (by decide))
    (by
      rw [KubeConfigFn_explicit sampleIdentifiers (threadWithDefault "/tmp/a.yaml") [] _
        "/tmp/b.yaml" (UnpackArgs_path _ _) (by decide)]
      simp only [threadWithDefault, sampleIdentifiers, SetLocal_SetLocal]
      rfl)
    (configRecord_path _)
    (by simp [plainDirective, Struct.entries, List.lookup])

end Starlark

namespace Starlark

/-- Unpacking `kube_config(s)`: one positional string is the path. -/
theorem UnpackArgs_positional_path (fnname s : String) :
    UnpackArgs fnname [Value.String s] [] = .ok (s, none) := by
  simp [UnpackArgs, unpackPositional, unpackKeywords, setPath, unpackString]

/-- Unpacking `kube_config(s, p)`: the second positional value is the provider. -/
theorem UnpackArgs_positional_both (fnname s : String) (p : Struct) :
    UnpackArgs fnname [Value.String s, Value.Struct p] [] = .ok (s, some p) := by
  simp [UnpackArgs, unpackPositional, unpackKeywords, setPath, setProvider, unpackString,
    unpackStruct]

/-- More than two positional values are refused. -/
theorem UnpackArgs_too_many (fnname : String) (args : List Value)
    (kwargs : List (String × Value)) (h : 2 < args.length) :
    UnpackArgs fnname args kwargs
      = .error (Error.Errorf (fnname ++ ": got " ++ toString args.length ++
          " arguments, want at most 2")) := by
  match args, h with
  | _ :: _ :: _ :: _, _ => simp [UnpackArgs, unpackPositional]

/-- The result of a call depends on its arguments through `UnpackArgs` only. -/
theorem KubeConfigFn_congr (identifiers : Identifiers) (thread : Thread)
    (args1 args2 : List Value) (kwargs1 kwargs2 : List (String × Value))
    (h : UnpackArgs identifiers.crashdCfg args1 kwargs1
      = UnpackArgs identifiers.crashdCfg args2 kwargs2) :
    KubeConfigFn identifiers thread args1 kwargs1
      = KubeConfigFn identifiers thread args2 kwargs2 := by
  unfold KubeConfigFn
  rw [h]

end Starlark

namespace Starlark

/-- C13 (single-entry side effect): every call of `KubeConfigFn` returns, and
every slot of the thread under a key other than `identifiers.kubeCfg` holds
after the call what it held before. -/
theorem single_entry_side_effect (identifiers : Identifiers) (thread : Thread)
    (args : List Value) (kwargs : List (String × Value)) :
    ∃ (r : Value × Option Error) (thread1 : Thread),
      KubeConfigFn identifiers thread args kwargs = .ret (r, thread1) ∧
      ∀ key : String, key ≠ identifiers.kubeCfg → thread1.Local key = thread.Local key := by
  rcases KubeConfigFn_cases identifiers args kwargs with ⟨err, hall⟩ | ⟨path, hall⟩
  · exact ⟨_, _, hall thread, fun _ _ => rfl⟩
  · exact ⟨_, _, hall thread, fun key hkey => Local_SetLocal_other thread _ key _ hkey⟩

/-- C13 at a successful call on a thread that holds a value under
"crashd_config": that slot is as it was. -/
theorem single_entry_side_effect_witness :
    ∃ (r : Value × Option Error) (thread1 : Thread),
      KubeConfigFn sampleIdentifiers threadWithOtherLocal []
          [("path", Value.String "/tmp/a.yaml")] = .ret (r, thread1) ∧
      thread1.Local "crashd_config" = some (Interface.goValue "*starlarkstruct.Struct") := by
  obtain ⟨r, thread1, hcall, hframe⟩ :=
    single_entry_side_effect sampleIdentifiers threadWithOtherLocal []
      [("path", Value.String "/tmp/a.yaml")]
  exact ⟨r, thread1, hcall, by rw [hframe "crashd_config" (by decide)]; rfl⟩

/-- C14 as stated fails: `kube_config(path="/tmp/a.yaml", capi_provider=p)` and
`kube_config()` return the same error value. -/
theorem both_and_neither_same_error :
    KubeConfigFn sampleIdentifiers Thread.empty []
        [("path", Value.String "/tmp/a.yaml"), ("capi_provider", Value.Struct sampleProvider)]
      = .ret ((None, some (Error.New "need either path or capi_provider")), Thread.empty) ∧
    KubeConfigFn sampleIdentifiers Thread.empty [] []
      = .ret ((None, some (Error.New "need either path or capi_provider")), Thread.empty) :=
  ⟨KubeConfigFn_bad_sources sampleIdentifiers Thread.empty [] _ "/tmp/a.yaml"
      (some sampleProvider) (UnpackArgs_path_provider _ _ _) (Or.inl ⟨by decide, rfl⟩),
    KubeConfigFn_bad_sources sampleIdentifiers Thread.empty [] [] "" none
      (UnpackArgs_nil _) (Or.inr ⟨rfl, rfl⟩)⟩

/-- C14, amended (one source error): a call of `KubeConfigFn` with both a
non-empty path and a provider, and a call with neither, return the same error,
`errors.New("need either path or capi_provider")`; the error alone does not say
which of the two violations occurred. -/
theorem one_source_error (identifiers : Identifiers) (thread : Thread)
    (args1 args2 : List Value) (kwargs1 kwargs2 : List (String × Value)) (path : String)
    (provider : Struct)
    (hboth : UnpackArgs identifiers.crashdCfg args1 kwargs1 = .ok (path, some provider))
    (hpath : path ≠ "")
    (hneither : UnpackArgs identifiers.crashdCfg args2 kwargs2 = .ok ("", none)) :
    ∃ err : Error,
      KubeConfigFn identifiers thread args1 kwargs1 = .ret ((None, some err), thread) ∧
      KubeConfigFn identifiers thread args2 kwargs2 = .ret ((None, some err), thread) ∧
      err = Error.New "need either path or capi_provider" :=
  ⟨_, KubeConfigFn_bad_sources identifiers thread args1 kwargs1 path (some provider) hboth
      (Or.inl ⟨hpath, rfl⟩),
    KubeConfigFn_bad_sources identifiers thread args2 kwargs2 "" none hneither
      (Or.inr ⟨rfl, rfl⟩), rfl⟩

/-- C14 amended, at `kube_config(capi_provider=p, path="/tmp/a.yaml")` and
`kube_config()`. -/
theorem one_source_error_witness :
    ∃ err : Error,
      KubeConfigFn sampleIdentifiers Thread.empty []
          [("capi_provider", Value.Struct sampleProvider), ("path", Value.String "/tmp/a.yaml")]
        = .ret ((None, some err), Thread.empty) ∧
      KubeConfigFn sampleIdentifiers Thread.empty [] [] = .ret ((None, some err), Thread.empty) ∧
      err = Error.New "need either path or capi_provider" :=
  one_source_error sampleIdentifiers Thread.empty [] []
    [("capi_provider", Value.Struct sampleProvider), ("path", Value.String "/tmp/a.yaml")] []
    "/tmp/a.yaml" sampleProvider (UnpackArgs_provider_path _ _ _) (by decide)
    (UnpackArgs_nil _)

/-- C15 as stated fails: `kube_config("/some/path")`, a call with one positional
argument, succeeds and resolves to that path. -/
theorem positional_path_is_accepted :
    KubeConfigFn sampleIdentifiers Thread.empty [Value.String "/some/path"] []
      = .ret ((Value.Struct (configRecord "/some/path"), none),
          Thread.empty.SetLocal sampleIdentifiers.kubeCfg
            (Interface.value (Value.Struct (configRecord "/some/path")))) :=
  KubeConfigFn_explicit sampleIdentifiers Thread.empty [Value.String "/some/path"] []
    "/some/path" (UnpackArgs_positional_path _ _) (by decide)

/-- C15, amended (positional arguments are taken in parameter order): a call of
`KubeConfigFn` with one positional string does what the call with that string
as `path` keyword does, a call with a positional string and a positional struct
does what the call with them as `path` and `capi_provider` keywords does, and a
call with more than two positional arguments fails with the invalid-arguments
error and leaves the thread as it was. -/
theorem positional_arguments (identifiers : Identifiers) (thread : Thread) :
    (∀ s : String,
      KubeConfigFn identifiers thread [Value.String s] []
        = KubeConfigFn identifiers thread [] [("path", Value.String s)]) ∧
    (∀ (s : String) (p : Struct),
      KubeConfigFn identifiers thread [Value.String s, Value.Struct p] []
        = KubeConfigFn identifiers thread []
            [("path", Value.String s), ("capi_provider", Value.Struct p)]) ∧
    (∀ (args : List Value) (kwargs : List (String × Value)), 2 < args.length →
      KubeConfigFn identifiers thread args kwargs
        = .ret ((None, some (Error.Errorf (identifiers.kubeCfg ++ ": " ++
            (identifiers.crashdCfg ++ ": got " ++ toString args.length ++
              " arguments, want at most 2")))), thread)) := by
  refine ⟨fun s => ?_, fun s p => ?_, fun args kwargs h => ?_⟩
  · apply KubeConfigFn_congr
    rw [UnpackArgs_positional_path, UnpackArgs_path]
  · apply KubeConfigFn_congr
    rw [UnpackArgs_positional_both, UnpackArgs_path_provider]
  · rw [KubeConfigFn_unpack_error identifiers thread args kwargs _
      (UnpackArgs_too_many identifiers.crashdCfg args kwargs h)]
    rfl

/-- C15 amended, at three positional arguments. -/
theorem positional_arguments_witness :
    ∃ err : Error,
      KubeConfigFn sampleIdentifiers Thread.empty
          [Value.String "/a", Value.Struct sampleProvider, Value.NoneType] []
        = .ret ((None, some err), Thread.empty) :=
  ⟨_, (positional_arguments sampleIdentifiers Thread.empty).2.2
    [Value.String "/a", Value.Struct sampleProvider, Value.NoneType] [] (by decide)⟩

end Starlark

namespace Starlark

/-- Seeding with a non-empty default path writes its record. -/
theorem addDefaultKubeConf_nonempty (identifiers : Identifiers) (defaults : Defaults)
    (thread : Thread) (h : defaults.kubeconfig ≠ "") :
    addDefaultKubeConf identifiers defaults thread
      = .ret (none, thread.SetLocal identifiers.kubeCfg
          (Interface.value (Value.Struct (configRecord defaults.kubeconfig)))) := by
  unfold addDefaultKubeConf
  dsimp only
  rw [KubeConfigFn_explicit identifiers thread [] _ defaults.kubeconfig (UnpackArgs_path _ _) h]
  rfl

/-- Seeding with the empty default path returns the source error. -/
theorem addDefaultKubeConf_empty (identifiers : Identifiers) (defaults : Defaults)
    (thread : Thread) (h : defaults.kubeconfig = "") :
    addDefaultKubeConf identifiers defaults thread
      = .ret (some (Error.New "need either path or capi_provider"), thread) := by
  unfold addDefaultKubeConf
  dsimp only
  rw [KubeConfigFn_bad_sources identifiers thread [] _ defaults.kubeconfig none
    (UnpackArgs_path _ _) (Or.inr ⟨h, rfl⟩)]

/-- An empty `path` keyword in front of the provider keyword unpacks as the
provider keyword alone. -/
theorem UnpackArgs_empty_path_first (fnname : String) (provider : Option Value) :
    UnpackArgs fnname [] (("path", Value.String "") :: providerKeyword provider)
      = UnpackArgs fnname [] (providerKeyword provider) := by
  cases provider with
  | none => simp [providerKeyword, UnpackArgs, unpackPositional, unpackKeywords, setPath,
      unpackString]
  | some v =>
    cases v <;>
      simp [providerKeyword, UnpackArgs, unpackPositional, unpackKeywords, setPath, setProvider,
        unpackString, unpackStruct]

/-- An empty `path` keyword after the provider keyword unpacks as the provider
keyword alone. -/
theorem UnpackArgs_empty_path_last (fnname : String) (provider : Option Value) :
    UnpackArgs fnname [] (providerKeyword provider ++ [("path", Value.String "")])
      = UnpackArgs fnname [] (providerKeyword provider) := by
  cases provider with
  | none => simp [providerKeyword, UnpackArgs, unpackPositional, unpackKeywords, setPath,
      unpackString]
  | some v =>
    cases v <;>
      simp [providerKeyword, UnpackArgs, unpackPositional, unpackKeywords, setPath, setProvider,
        unpackString, unpackStruct]

end Starlark

namespace Starlark

/-- C16 (soundness of the effective path), as the code has it: when the
directive has a `kube_config` attribute whose value is not a record,
`getKubeConfigPath` returns the empty path with a nil error, on every thread. -/
theorem non_record_override_gives_empty_path (identifiers : Identifiers) (thread : Thread)
    (directive : Struct) (kcVal : Value)
    (hattr : directive.Attr "kube_config" = .ok kcVal)
    (hnot : ∀ record : Struct, kcVal ≠ Value.Struct record) :
    getKubeConfigPath identifiers thread directive = .ret ("", none) := by
  cases kcVal with
  | Struct record => exact absurd rfl (hnot record)
  | _ => simp [getKubeConfigPath, hattr, kubeConfigPathOf]

/-- C16 at a directive with `kube_config="/etc/own.yaml"`, a string, on a
thread that holds a good default. -/
theorem non_record_override_gives_empty_path_witness :
    getKubeConfigPath sampleIdentifiers (threadWithDefault "/tmp/default.yaml")
      directiveWithStringConfig = .ret ("", none) :=
  non_record_override_gives_empty_path sampleIdentifiers (threadWithDefault "/tmp/default.yaml")
    directiveWithStringConfig (Value.String "/etc/own.yaml")
    (by simp [directiveWithStringConfig, Struct.Attr, Struct.entries, List.lookup])
    (fun _ h => Value.noConfusion h)

/-- C17 (default seeding): `addDefaultKubeConf` returns a nil error exactly when
`defaults.kubeconfig` is not empty; when it does, the thread it leaves holds
under `identifiers.kubeCfg` the record whose `path` is `defaults.kubeconfig`,
and `getKubeConfigPath` for a directive without `kube_config` returns that
path; when the default is empty it returns an error and the thread as it was. -/
theorem default_seeding (identifiers : Identifiers) (defaults : Defaults) (thread : Thread) :
    ((∃ thread1 : Thread, addDefaultKubeConf identifiers defaults thread = .ret (none, thread1))
      ↔ defaults.kubeconfig ≠ "") ∧
    (∀ thread1 : Thread, addDefaultKubeConf identifiers defaults thread = .ret (none, thread1) →
      thread1.Local identifiers.kubeCfg
        = some (Interface.value (Value.Struct (configRecord defaults.kubeconfig))) ∧
      (configRecord defaults.kubeconfig).Attr "path" = .ok (Value.String defaults.kubeconfig) ∧
      ∀ directive : Struct, directive.entries.lookup "kube_config" = none →
        getKubeConfigPath identifiers thread1 directive = .ret (defaults.kubeconfig, none)) ∧
    (defaults.kubeconfig = "" →
      ∃ err : Error, addDefaultKubeConf identifiers defaults thread = .ret (some err, thread)) := by
  by_cases hd : defaults.kubeconfig = ""
  · have he := addDefaultKubeConf_empty identifiers defaults thread hd
    refine ⟨⟨?_, fun hne => absurd hd hne⟩, ?_, fun _ => ⟨_, he⟩⟩
    · rintro ⟨thread1, h1⟩
      rw [he] at h1
      simp at h1
    · intro thread1 h1
      rw [he] at h1
      simp at h1
  · have hs := addDefaultKubeConf_nonempty identifiers defaults thread hd
    refine ⟨⟨fun _ => hd, fun _ => ⟨_, hs⟩⟩, ?_, fun he => absurd he hd⟩
    intro thread1 h1
    rw [hs] at h1
    simp only [Outcome.ret.injEq, Prod.mk.injEq, true_and] at h1
    subst h1
    refine ⟨Local_SetLocal_same _ _ _, configRecord_path _, fun directive hno => ?_⟩
    exact getKubeConfigPath_default identifiers _ directive _ _ (Local_SetLocal_same _ _ _)
      (configRecord_path _) hno

/-- C17 at the default "/home/user/.kube/config" on a fresh thread. -/
theorem default_seeding_witness :
    addDefaultKubeConf sampleIdentifiers sampleDefaults Thread.empty
      = .ret (none, threadWithDefault "/home/user/.kube/config") ∧
    getKubeConfigPath sampleIdentifiers (threadWithDefault "/home/user/.kube/config")
      plainDirective = .ret ("/home/user/.kube/config", none) := by
  have hs : addDefaultKubeConf sampleIdentifiers sampleDefaults Thread.empty
      = .ret (none, threadWithDefault "/home/user/.kube/config") :=
    addDefaultKubeConf_nonempty sampleIdentifiers sampleDefaults Thread.empty (by decide)
  exact ⟨hs, ((default_seeding sampleIdentifiers sampleDefaults Thread.empty).2.1 _ hs).2.2
    plainDirective (by simp [plainDirective, Struct.entries, List.lookup])⟩

/-- C18 (atomicity on failure): a call of `KubeConfigFn` that returns an error
leaves the thread as it was, so `getKubeConfigPath` answers every directive
after the call as it did before. -/
theorem failed_call_leaves_thread (identifiers : Identifiers) (thread thread1 : Thread)
    (args : List Value) (kwargs : List (String × Value)) (v : Value) (err : Error)
    (hcall : KubeConfigFn identifiers thread args kwargs = .ret ((v, some err), thread1)) :
    thread1 = thread ∧
      ∀ directive : Struct,
        getKubeConfigPath identifiers thread1 directive
          = getKubeConfigPath identifiers thread directive := by
  have ht := KubeConfigFn_error_thread identifiers thread thread1 args kwargs v err hcall
  exact ⟨ht, fun directive => by rw [ht]⟩

/-- A call with a provider tagged `"other"` fails on a thread that holds the
default "/tmp/default.yaml". -/
theorem unknown_provider_on_default_thread :
    KubeConfigFn sampleIdentifiers (threadWithDefault "/tmp/default.yaml") []
        [("capi_provider", Value.Struct otherProvider)]
      = .ret ((None, some (Error.New "unknown capi provider")),
          threadWithDefault "/tmp/default.yaml") := by
  rw [KubeConfigFn_via_provider sampleIdentifiers _ [] _ otherProvider (UnpackArgs_provider _ _)]
  simp [pathFromProvider, checkConstructor, otherProvider, sampleIdentifiers,
    Struct.Constructor]

/-- C18 at `kube_config(capi_provider=p)` with `p` tagged `"other"`, on a thread
that holds the default "/tmp/default.yaml": the call fails and the default is
still what a directive without `kube_config` gets. -/
theorem failed_call_leaves_thread_witness :
    KubeConfigFn sampleIdentifiers (threadWithDefault "/tmp/default.yaml") []
        [("capi_provider", Value.Struct otherProvider)]
      = .ret ((None, some (Error.New "unknown capi provider")),
          threadWithDefault "/tmp/default.yaml") ∧
    getKubeConfigPath sampleIdentifiers (threadWithDefault "/tmp/default.yaml") plainDirective
      = .ret ("/tmp/default.yaml", none) :=
  ⟨unknown_provider_on_default_thread,
    ((failed_call_leaves_thread sampleIdentifiers (threadWithDefault "/tmp/default.yaml")
      (threadWithDefault "/tmp/default.yaml") [] [("capi_provider", Value.Struct otherProvider)]
      None (Error.New "unknown capi provider") unknown_provider_on_default_thread).2
      plainDirective).trans
      (getKubeConfigPath_default sampleIdentifiers _ plainDirective
        (configRecord "/tmp/default.yaml") "/tmp/default.yaml" (Local_SetLocal_same _ _ _)
        (configRecord_path _) (by simp [plainDirective, Struct.entries, List.lookup]))⟩

/-- C19 (empty path is no path): a call of `KubeConfigFn` with `path=""`, given
before or after the provider keyword, whether that keyword is there or not and
whatever its value, returns what the call without `path` returns and leaves the
same thread; so `kube_config(path="")` fails as `kube_config()` does, and a call
with a `path` string and no provider succeeds exactly when the string is not
empty. -/
theorem empty_path_is_no_path (identifiers : Identifiers) (thread : Thread) :
    (∀ provider : Option Value,
      KubeConfigFn identifiers thread [] (("path", Value.String "") :: providerKeyword provider)
        = KubeConfigFn identifiers thread [] (providerKeyword provider)) ∧
    (∀ provider : Option Value,
      KubeConfigFn identifiers thread [] (providerKeyword provider ++ [("path", Value.String "")])
        = KubeConfigFn identifiers thread [] (providerKeyword provider)) ∧
    KubeConfigFn identifiers thread [] [("path", Value.String "")]
      = .ret ((None, some (Error.New "need either path or capi_provider")), thread) ∧
    (∀ s : String,
      (∃ (v : Value) (thread1 : Thread),
        KubeConfigFn identifiers thread [] [("path", Value.String s)] = .ret ((v, none), thread1))
      ↔ s ≠ "") := by
  refine ⟨fun provider => ?_, fun provider => ?_, ?_, fun s => ⟨?_, fun hs => ?_⟩⟩
  · exact KubeConfigFn_congr identifiers thread _ _ _ _ (UnpackArgs_empty_path_first _ provider)
  · exact KubeConfigFn_congr identifiers thread _ _ _ _ (UnpackArgs_empty_path_last _ provider)
  · exact KubeConfigFn_bad_sources identifiers thread [] _ "" none (UnpackArgs_path _ _)
      (Or.inr ⟨rfl, rfl⟩)
  · rintro ⟨v, thread1, hcall⟩ hs
    rw [KubeConfigFn_bad_sources identifiers thread [] _ s none (UnpackArgs_path _ _)
      (Or.inr ⟨hs, rfl⟩)] at hcall
    simp at hcall
  · exact ⟨_, _, KubeConfigFn_explicit identifiers thread [] _ s (UnpackArgs_path _ _) hs⟩

/-- C19 at `kube_config(path="", capi_provider=p)`: it resolves through `p`. -/
theorem empty_path_is_no_path_witness :
    KubeConfigFn sampleIdentifiers Thread.empty []
        [("path", Value.String ""), ("capi_provider", Value.Struct sampleProvider)]
      = .ret ((Value.Struct (configRecord "/tmp/a.yaml"), none),
          threadWithDefault "/tmp/a.yaml") := by
  have h := (empty_path_is_no_path sampleIdentifiers Thread.empty).1
    (some (Value.Struct sampleProvider))
  simp only [providerKeyword] at h
  rw [h, KubeConfigFn_via_provider sampleIdentifiers Thread.empty [] _ sampleProvider
    (UnpackArgs_provider _ _)]
  simp [pathFromProvider, checkConstructor, sampleProvider, sampleIdentifiers,
    Struct.Constructor, Struct.Attr, Struct.entries, List.lookup, configRecord,
    threadWithDefault]

end Starlark
